import Mathlib

/-!
# Verification of the MCP-Backend-Shopify session/cart logic

Shallow embedding of `src/index.js` (an Express proxy exposing
`/search`, `/add-to-cart`, `/create-checkout` over a Shopify
Storefront GraphQL endpoint).  Remote responses are environment
inputs; each handler is a pure function of the request, the session
store and the scripted remote responses, returning the HTTP answer,
the new store and the list of remote calls it issued.
-/

namespace MCP

/-- A JSON scalar, as can appear in the request body's `quantity`
field.  (Objects/arrays would coerce to NaN like non-numeric strings;
the scalar cases cover the behaviours the routes distinguish.) -/
inductive JsonVal where
  | jNum (n : Int)
  | jStr (s : String)
  | jBool (b : Bool)
  | jNull
deriving Repr, DecidableEq

/-- Decimal digits of a character list as a number; `none` when the
list is empty or holds a non-digit. -/
def digitsToNat (cs : List Char) : Option Nat :=
  if cs = [] then none
  else cs.foldl
    (fun acc c =>
      acc.bind (fun a => if c.isDigit then some (a * 10 + (c.toNat - 48)) else none))
    (some 0)

/-- JS `Number()` on a string, for the decimal-integer fragment the
routes are exercised with: surrounding spaces are ignored, the empty
string is 0, an optional sign precedes the digits, anything else is
NaN (`none`).  (Fractional, exponent and hex forms are outside the
model; the code does no arithmetic on the value.) -/
def jsStrToNumber (s : String) : Option Int :=
  let cs := ((s.data.dropWhile (fun c => c = ' ')).reverse.dropWhile
    (fun c => c = ' ')).reverse
  match cs with
  | [] => some 0
  | '-' :: ds => (digitsToNat ds).map (fun n => -(n : Int))
  | '+' :: ds => (digitsToNat ds).map (fun n => (n : Int))
  | ds => (digitsToNat ds).map (fun n => (n : Int))

/-- JS `Number(v)` coercion on a scalar; `none` models NaN.
`Number("") = 0`, `Number(null) = 0`, `Number(true) = 1`,
numeric strings parse, other strings give NaN. -/
def jsNumber : JsonVal → Option Int
  | .jNum n => some n
  | .jStr s => jsStrToNumber s
  | .jBool b => some (if b then 1 else 0)
  | .jNull => some 0

/-- The quantity actually sent to the line-add mutation. Embeds
`const { quantity = 1 } = req.body` followed by
`Number(quantity) || 1` in src/index.js:148: an absent field gets the
destructuring default `1`; then `||` replaces a falsy coercion result
(NaN or 0) by 1, and keeps any non-zero number — including negative
ones, which are truthy in JS. -/
def coerceQuantity (q : Option JsonVal) : Int :=
  match q with
  | none => 1
  | some v =>
    match jsNumber v with
    | none => 1
    | some n => if n = 0 then 1 else n

/-- Model of `JSON.stringify` applied to the GraphQL `errors` array
(a list of already-serialized error objects). -/
def jsonStringifyErrors (errs : List String) : String :=
  "[" ++ String.intercalate "," errs ++ "]"

/-- A raw reply from the remote endpoint as `shopifyFetch` sees it:
the HTTP success flag `res.ok`, the optional `errors` member of the
parsed JSON (JS: any present value is truthy, even `[]`), the typed
`data` member, and `raw`, the serialization of the whole JSON body
(used for the error message when `errors` is absent). -/
structure SFResponse (α : Type) where
  ok : Bool
  errors : Option (List String)
  data : α
  raw : String
deriving Repr, DecidableEq

/-- Embeds `shopifyFetch` (src/index.js:37-51): on a non-ok status or
a present `errors` member it throws
`Error(JSON.stringify(json.errors || json))`; otherwise it returns
`json.data`. -/
def shopifyFetch {α : Type} (resp : SFResponse α) : Except String α :=
  if !resp.ok || resp.errors.isSome then
    .error (match resp.errors with
            | some errs => jsonStringifyErrors errs
            | none => resp.raw)
  else
    .ok resp.data

/-- A `userErrors` entry; `""` models an absent/empty `message`
(falsy in JS, triggering the `|| 'cartCreate error'` fallback). -/
structure UserError where
  message : String
deriving Repr, DecidableEq

/-- The `cart { id checkoutUrl }` object of a `cartCreate` payload. -/
structure CreatedCart where
  id : String
  checkoutUrl : String
deriving Repr, DecidableEq

/-- The `data.cartCreate` payload (schema-well-formed: the routes
dereference `cart` without a null check). -/
structure CartCreatePayload where
  cart : CreatedCart
  userErrors : List UserError
deriving Repr, DecidableEq

/-- The `cart { id checkoutUrl totalQuantity }` object of a
`cartLinesAdd` payload. -/
structure LinesAddCart where
  id : String
  checkoutUrl : String
  totalQuantity : Int
deriving Repr, DecidableEq

/-- The `data.cartLinesAdd` payload. -/
structure CartLinesAddPayload where
  cart : LinesAddCart
  userErrors : List UserError
deriving Repr, DecidableEq

/-- The record stored in the `sessions` map:
`{ cartId: ..., checkoutUrl: ... }`. -/
structure CartRecord where
  cartId : String
  checkoutUrl : String
deriving Repr, DecidableEq

/-- The `sessions` JS `Map`, as an association list with unique keys
(we only use `get` and `set`). -/
abbrev SessionStore := List (String × CartRecord)

/-- JS `sessions.get(k)`: the value of the first (unique) binding of
`k`, if any. -/
def storeGet : SessionStore → String → Option CartRecord
  | [], _ => none
  | p :: m, k => if p.1 = k then some p.2 else storeGet m k

/-- JS `sessions.set(k, v)`: replace the binding of `k` in place if
present, append a new one otherwise. -/
def storeSet : SessionStore → String → CartRecord → SessionStore
  | [], k, v => [(k, v)]
  | p :: m, k, v => if p.1 = k then (k, v) :: m else p :: storeSet m k v

/-- Model of JS `s.slice(0, n)`: the prefix of at most `n` characters
(code points; identical to code units on the ASCII inputs at play). -/
def sliceTo (s : String) (n : Nat) : String :=
  String.mk (s.data.take n)

/-- Embeds `getSessionId` (src/index.js:31-35): the
`x-session-id` header if present and truthy (a present-but-empty
header is falsy and falls through), else
`` `${req.ip}:${req.headers['user-agent'] || ''}`.slice(0, 128) ``.
`userAgent = none` models an absent user-agent header. -/
def getSessionId (headerSid : Option String) (ip : String)
    (userAgent : Option String) : String :=
  match headerSid with
  | some sid => if sid ≠ "" then sid else sliceTo (ip ++ ":" ++ userAgent.getD "") 128
  | none => sliceTo (ip ++ ":" ++ userAgent.getD "") 128

/-- Embeds the query-string build of `/search` (src/index.js:113-117):
`qParts` gets `String(query)` if `query` is truthy and
`` `price:<${Number(maxPrice)}` `` if `maxPrice` is truthy (`0` is
falsy, so no price token for a zero max price), joined by `' '`.
The model restricts `query` to a string and `maxPrice` to an integral
number, the payloads the route is designed for. -/
def buildSearchQuery (query : Option String) (maxPrice : Option Int) : String :=
  let qParts : List String :=
    (match query with
     | some s => if s ≠ "" then [s] else []
     | none => []) ++
    (match maxPrice with
     | some n => if n ≠ 0 then ["price:<" ++ toString n] else []
     | none => [])
  String.intercalate " " qParts

/-- The variables `{ q, first: 10 }` sent with `GQL.SEARCH`
(src/index.js:119). -/
def searchRemoteVariables (q : String) : String × Nat := (q, 10)

/-- The page-size argument of the `GQL.SEARCH` query text:
`products(first: $first, ...)` receives `first = 10`. -/
def searchFirst : Nat := (searchRemoteVariables "").2

/-- The variant page size hard-coded in the `GQL.SEARCH` query text:
`variants(first: 5)` (src/index.js:66). -/
def gqlSearchVariantsFirst : Nat := 5

/-- An `{ amount currencyCode }` price object. -/
structure Price where
  amount : String
  currencyCode : String
deriving Repr, DecidableEq

/-- A variant node of the search response:
`{ id title price { amount currencyCode } }`. -/
structure VariantNode where
  id : String
  title : String
  price : Price
deriving Repr, DecidableEq

/-- The `priceRange { minVariantPrice { ... } }` object with the nullability the
code guards against (`node.priceRange?.minVariantPrice?.amount`). -/
structure PriceRange where
  minVariantPrice : Option Price
deriving Repr, DecidableEq

/-- A product node of the search response.  `images` holds the urls of
`images(first: 1).edges` in order (the code reads only the first);
`featuredImage` is the url of the separate `featuredImage` member,
`none` when that member is null.  `variants` is `none` when the
`variants` member is null, mirroring `node.variants?.edges || []`. -/
structure ProductNode where
  id : String
  title : String
  featuredImage : Option String
  images : List String
  priceRange : Option PriceRange
  variants : Option (List VariantNode)
deriving Repr, DecidableEq

/-- A variant summary in the route's answer. -/
structure VariantSummary where
  id : String
  title : String
  price : Price
deriving Repr, DecidableEq

/-- One item of the `/search` answer. -/
structure SearchItem where
  id : String
  title : String
  price : Option String
  imageUrl : String
  variants : List VariantSummary
deriving Repr, DecidableEq

/-- Embeds the per-node shaping of `/search` (src/index.js:120-133):
`imgEdge?.node?.url || node.featuredImage?.url || ''` (the `||` chain
also skips a present-but-empty url), the optional-chained price
amount, and the variant summaries. -/
def mkSearchItem (node : ProductNode) : SearchItem :=
  let featured := match node.featuredImage with
                  | some f => f
                  | none => ""
  let imageUrl := match node.images.head? with
                  | some u => if u ≠ "" then u else (if featured ≠ "" then featured else "")
                  | none => if featured ≠ "" then featured else ""
  { id := node.id
    title := node.title
    price := (node.priceRange.bind (·.minVariantPrice)).map (·.amount)
    imageUrl := imageUrl
    variants := (node.variants.getD []).map
      (fun v => { id := v.id, title := v.title, price := v.price }) }

/-- The whole item list: `(data.products.edges || []).map(...)`. -/
def searchItems (edges : List ProductNode) : List SearchItem :=
  edges.map mkSearchItem

/-- An HTTP answer of a route: `res.json({ result })` on success,
`res.status(status).json({ error: true, message })` on failure. -/
inductive RouteResp (α : Type) where
  | ok (result : α)
  | err (status : Nat) (message : String)
deriving Repr, DecidableEq

/-- The HTTP status of a route answer (success replies are 200). -/
def RouteResp.status {α : Type} : RouteResp α → Nat
  | .ok _ => 200
  | .err s _ => s

/-- A remote call issued by a handler, with the arguments it sent. -/
inductive RemoteCall where
  | cartCreate
  | cartLinesAdd (cartId : String) (merchandiseId : String) (quantity : Int)
  | search (q : String) (first : Nat)
deriving Repr, DecidableEq

/-- Outcome of `ensureCartForSession`: the thrown message or the
session's cart record, together with the store after the call and the
remote calls issued. -/
structure EnsureOut where
  result : Except String CartRecord
  store : SessionStore
  calls : List RemoteCall
deriving Repr

/-- The `shopifyFetch(GQL.CART_CREATE)` branch of
`ensureCartForSession` (src/index.js:102-108), taken when no truthy
`cartId` is stored: throw on fetch failure or on a first `userErrors`
entry (`err.message || 'cartCreate error'`), else store and return
`{ cartId: cart.id, checkoutUrl: cart.checkoutUrl }`. -/
def cartCreatePath (store : SessionStore) (sessionId : String)
    (createResp : SFResponse CartCreatePayload) : EnsureOut :=
  match shopifyFetch createResp with
  | .error msg => { result := .error msg, store := store, calls := [.cartCreate] }
  | .ok payload =>
    match payload.userErrors.head? with
    | some e =>
      { result := .error (if e.message ≠ "" then e.message else "cartCreate error")
        store := store, calls := [.cartCreate] }
    | none =>
      let s : CartRecord :=
        { cartId := payload.cart.id, checkoutUrl := payload.cart.checkoutUrl }
      { result := .ok s, store := storeSet store sessionId s, calls := [.cartCreate] }

/-- Embeds `ensureCartForSession` (src/index.js:98-109):
`let s = sessions.get(sessionId); if (s?.cartId) return s;` — when the
stored record's `cartId` is truthy it is returned unchanged with no
remote call; otherwise the `cartCreate` branch runs. -/
def ensureCartForSession (store : SessionStore) (sessionId : String)
    (createResp : SFResponse CartCreatePayload) : EnsureOut :=
  match storeGet store sessionId with
  | some s =>
    if s.cartId ≠ "" then
      { result := .ok s, store := store, calls := [] }
    else
      cartCreatePath store sessionId createResp
  | none => cartCreatePath store sessionId createResp

/-- The body of a `/add-to-cart` request.  `variantId = none` models
an absent field; the route's `!variantId` check also rejects an empty
string, which the model keeps as `some ""`. -/
structure AddToCartReq where
  variantId : Option String
  quantity : Option JsonVal
deriving Repr, DecidableEq

/-- The `result` object of a successful `/add-to-cart` answer. -/
structure AddResult where
  cartId : String
  checkoutUrl : String
  totalQuantity : Int
deriving Repr, DecidableEq

/-- The scripted remote replies available to one `/add-to-cart`
request: what `shopifyFetch` would see for `CART_CREATE` and for
`CART_LINES_ADD`, were those calls issued. -/
structure AddEnv where
  createResp : SFResponse CartCreatePayload
  addResp : SFResponse CartLinesAddPayload
deriving Repr, DecidableEq

/-- Outcome of a route handler on the shared state: the HTTP answer,
the store after the request and the remote calls issued. -/
structure HandlerOut (α : Type) where
  resp : RouteResp α
  store : SessionStore
  calls : List RemoteCall
deriving Repr

/-- Embeds the `/add-to-cart` handler (src/index.js:141-162): 400 when
`variantId` is falsy; otherwise resolve the session's cart (500 on
failure), send `cartLinesAdd(cartId, [{merchandiseId, quantity:
Number(quantity) || 1}])`, throw on fetch failure or a first user
error (caught as 500), and on success re-store
`{ cartId: cart.id, checkoutUrl: cart.checkoutUrl }` and answer with
`{ cartId, checkoutUrl, totalQuantity }`. -/
def addToCart (store : SessionStore) (sid : String) (req : AddToCartReq)
    (env : AddEnv) : HandlerOut AddResult :=
  match req.variantId with
  | none => { resp := .err 400 "variantId required", store := store, calls := [] }
  | some vid =>
    if vid = "" then
      { resp := .err 400 "variantId required", store := store, calls := [] }
    else
      let ens := ensureCartForSession store sid env.createResp
      match ens.result with
      | .error msg => { resp := .err 500 msg, store := ens.store, calls := ens.calls }
      | .ok session =>
        let qty := coerceQuantity req.quantity
        let calls := ens.calls ++ [.cartLinesAdd session.cartId vid qty]
        match shopifyFetch env.addResp with
        | .error msg => { resp := .err 500 msg, store := ens.store, calls := calls }
        | .ok payload =>
          match payload.userErrors.head? with
          | some e =>
            { resp := .err 500 (if e.message ≠ "" then e.message else "cartLinesAdd error")
              store := ens.store, calls := calls }
          | none =>
            let cart := payload.cart
            { resp := .ok { cartId := cart.id, checkoutUrl := cart.checkoutUrl
                            totalQuantity := cart.totalQuantity }
              store := storeSet ens.store sid
                { cartId := cart.id, checkoutUrl := cart.checkoutUrl }
              calls := calls }

/-- The `result` object of a successful `/create-checkout` answer. -/
structure CheckoutResult where
  checkoutUrl : String
  cartId : String
deriving Repr, DecidableEq

/-- Embeds the `/create-checkout` handler (src/index.js:166-174):
resolve the session's cart and answer
`{ checkoutUrl: session.checkoutUrl, cartId: session.cartId }`,
500 on a resolution failure. -/
def createCheckout (store : SessionStore) (sid : String)
    (createResp : SFResponse CartCreatePayload) : HandlerOut CheckoutResult :=
  let ens := ensureCartForSession store sid createResp
  match ens.result with
  | .error msg => { resp := .err 500 msg, store := ens.store, calls := ens.calls }
  | .ok session =>
    { resp := .ok { checkoutUrl := session.checkoutUrl, cartId := session.cartId }
      store := ens.store, calls := ens.calls }

/-- The body of a `/search` request (model restricted to the payloads
the route is designed for, see `buildSearchQuery`). -/
structure SearchReq where
  query : Option String
  maxPrice : Option Int
deriving Repr, DecidableEq

/-- The `data.products` payload of the search query;
`edges = none` models a null `edges` member
(`data.products.edges || []`). -/
structure ProductsPayload where
  edges : Option (List ProductNode)
deriving Repr, DecidableEq

/-- The `data` payload of the search query. -/
structure SearchPayload where
  products : ProductsPayload
deriving Repr, DecidableEq

/-- Embeds the `/search` handler (src/index.js:111-139): build the
query string, call `shopifyFetch(GQL.SEARCH, { q, first: 10 })`
(500 with the thrown message on failure) and shape the item list.
The handler never touches the session store. -/
def search (store : SessionStore) (req : SearchReq)
    (resp : SFResponse SearchPayload) : HandlerOut (List SearchItem) :=
  let q := buildSearchQuery req.query req.maxPrice
  let calls := [RemoteCall.search q (searchRemoteVariables q).2]
  match shopifyFetch resp with
  | .error msg => { resp := .err 500 msg, store := store, calls := calls }
  | .ok payload =>
    { resp := .ok (searchItems (payload.products.edges.getD []))
      store := store, calls := calls }

/-- One inbound request together with its scripted remote replies —
the store-relevant operations of the server (`/search` never writes
the store; `/create-checkout` writes exactly as `resolve` does). -/
inductive Op where
  | resolve (sid : String) (createResp : SFResponse CartCreatePayload)
  | add (sid : String) (req : AddToCartReq) (env : AddEnv)
deriving Repr, DecidableEq

/-- The store after one operation. -/
def stepStore (store : SessionStore) : Op → SessionStore
  | .resolve sid createResp => (ensureCartForSession store sid createResp).store
  | .add sid req env => (addToCart store sid req env).store

/-- The store after a sequence of operations. -/
def run (store : SessionStore) : List Op → SessionStore
  | [] => store
  | op :: ops => run (stepStore store op) ops

/-- Predicate `EchoOk sid cid op`: the operation either concerns another
session, or is a resolve, or is an add-to-cart whose scripted
line-add reply — if it is a success — carries cart id `cid`.  This is
the "remote echoes the cart id" discipline of the actual Storefront
API, which the implementation trusts as source of truth. -/
def EchoOk (sid cid : String) : Op → Prop
  | .resolve _ _ => True
  | .add sid' _ env =>
    sid' = sid →
      (env.addResp.ok = true → env.addResp.errors = none →
        env.addResp.data.userErrors = [] → env.addResp.data.cart.id = cid)

instance (sid cid : String) (op : Op) : Decidable (EchoOk sid cid op) := by
  cases op with
  | resolve s c => exact isTrue trivial
  | add s r e => unfold EchoOk; infer_instance

/-- Predicate `CreateYields resp r`: the scripted `cartCreate` reply is a
success (ok status, no `errors`, no `userErrors`) and `r` is exactly
the record the code builds from its cart, both fields included. -/
def CreateYields (resp : SFResponse CartCreatePayload) (r : CartRecord) : Prop :=
  resp.ok = true ∧ resp.errors = none ∧ resp.data.userErrors = [] ∧
  r = { cartId := resp.data.cart.id, checkoutUrl := resp.data.cart.checkoutUrl }

/-- Predicate `AddYields resp r`: same for a `cartLinesAdd` reply. -/
def AddYields (resp : SFResponse CartLinesAddPayload) (r : CartRecord) : Prop :=
  resp.ok = true ∧ resp.errors = none ∧ resp.data.userErrors = [] ∧
  r = { cartId := resp.data.cart.id, checkoutUrl := resp.data.cart.checkoutUrl }

/-- Predicate `OpYields op r`: record `r` is built from a successful
remote mutation reply of operation `op`, both fields taken from that
reply's cart. -/
def OpYields : Op → CartRecord → Prop
  | .resolve _ cr, r => CreateYields cr r
  | .add _ _ env, r => CreateYields env.createResp r ∨ AddYields env.addResp r

/-! ## Auxiliary lemmas about the store and the handlers -/

theorem storeGet_storeSet_self (m : SessionStore) (k : String) (v : CartRecord) :
    storeGet (storeSet m k v) k = some v := by
  induction m with
  | nil => simp [storeSet, storeGet]
  | cons p m ih =>
    by_cases h : p.1 = k
    · simp [storeSet, storeGet, h]
    · simp [storeSet, storeGet, h, ih]

theorem storeGet_storeSet_ne (m : SessionStore) (k k' : String) (v : CartRecord)
    (h : k ≠ k') : storeGet (storeSet m k v) k' = storeGet m k' := by
  induction m with
  | nil => simp [storeSet, storeGet, h]
  | cons p m ih =>
    by_cases hp : p.1 = k
    · simp [storeSet, storeGet, hp, h]
    · by_cases hp' : p.1 = k'
      · simp [storeSet, storeGet, hp, hp', Ne.symm h]
      · simp [storeSet, storeGet, hp, hp', ih]

theorem storeGet_storeSet_cases (m : SessionStore) (k k' : String)
    (v r : CartRecord) (h : storeGet (storeSet m k v) k' = some r) :
    (k' = k ∧ r = v) ∨ storeGet m k' = some r := by
  by_cases hk : k = k'
  · subst hk
    rw [storeGet_storeSet_self] at h
    exact .inl ⟨rfl, (Option.some_injective _ h).symm⟩
  · rw [storeGet_storeSet_ne m k k' v hk] at h
    exact .inr h

theorem shopifyFetch_ok_iff {α : Type} (resp : SFResponse α) :
    shopifyFetch resp = .ok resp.data ↔ (resp.ok = true ∧ resp.errors = none) := by
  unfold shopifyFetch
  constructor
  · intro h
    by_cases hok : resp.ok
    · cases herr : resp.errors with
      | none => exact ⟨hok, rfl⟩
      | some e => simp [hok, herr] at h
    · simp [Bool.not_eq_true] at hok
      simp [hok] at h
  · rintro ⟨hok, herr⟩
    simp [hok, herr]

theorem shopifyFetch_errors {α : Type} (resp : SFResponse α) (errs : List String)
    (h : resp.errors = some errs) :
    shopifyFetch resp = .error (jsonStringifyErrors errs) := by
  unfold shopifyFetch
  simp [h]

theorem shopifyFetch_transport {α : Type} (resp : SFResponse α)
    (hok : resp.ok = false) (herr : resp.errors = none) :
    shopifyFetch resp = .error resp.raw := by
  unfold shopifyFetch
  simp [hok, herr]

theorem ensure_complete_record (store : SessionStore) (sid : String)
    (r : CartRecord) (cr : SFResponse CartCreatePayload)
    (hget : storeGet store sid = some r) (hid : r.cartId ≠ "") :
    ensureCartForSession store sid cr = { result := .ok r, store := store, calls := [] } := by
  unfold ensureCartForSession
  rw [hget]
  simp [hid]

theorem ensure_fresh_success (store : SessionStore) (sid : String)
    (cr : SFResponse CartCreatePayload)
    (hget : storeGet store sid = none)
    (hok : cr.ok = true) (herr : cr.errors = none) (hue : cr.data.userErrors = []) :
    ensureCartForSession store sid cr =
      { result := .ok { cartId := cr.data.cart.id, checkoutUrl := cr.data.cart.checkoutUrl }
        store := storeSet store sid
          { cartId := cr.data.cart.id, checkoutUrl := cr.data.cart.checkoutUrl }
        calls := [.cartCreate] } := by
  unfold ensureCartForSession
  rw [hget]
  unfold cartCreatePath
  rw [(shopifyFetch_ok_iff cr).mpr ⟨hok, herr⟩]
  simp [hue]

theorem ensure_store_cases (store : SessionStore) (sid : String)
    (cr : SFResponse CartCreatePayload) :
    (ensureCartForSession store sid cr).store = store ∨
    ∃ v, (ensureCartForSession store sid cr).store = storeSet store sid v := by
  unfold ensureCartForSession cartCreatePath
  cases storeGet store sid with
  | some s =>
    by_cases hid : s.cartId ≠ ""
    · simp [hid]
    · cases h : shopifyFetch cr with
      | error msg => simp [hid, h]
      | ok payload =>
        cases hue : payload.userErrors.head? with
        | some e => simp [hid, h, hue]
        | none =>
          exact .inr ⟨{ cartId := payload.cart.id, checkoutUrl := payload.cart.checkoutUrl },
            by simp [hid, h, hue]⟩
  | none =>
    cases h : shopifyFetch cr with
    | error msg => simp [h]
    | ok payload =>
      cases hue : payload.userErrors.head? with
      | some e => simp [h, hue]
      | none =>
        exact .inr ⟨{ cartId := payload.cart.id, checkoutUrl := payload.cart.checkoutUrl },
          by simp [h, hue]⟩

theorem ensure_store_other_key (store : SessionStore) (sid sid' : String)
    (cr : SFResponse CartCreatePayload) (h : sid' ≠ sid) :
    storeGet (ensureCartForSession store sid' cr).store sid = storeGet store sid := by
  rcases ensure_store_cases store sid' cr with heq | ⟨v, heq⟩
  · rw [heq]
  · rw [heq, storeGet_storeSet_ne _ _ _ _ h]

theorem shopifyFetch_ok_inv {α : Type} (resp : SFResponse α) (payload : α)
    (h : shopifyFetch resp = .ok payload) :
    resp.ok = true ∧ resp.errors = none ∧ payload = resp.data := by
  unfold shopifyFetch at h
  by_cases hok : resp.ok
  · cases herr : resp.errors with
    | none =>
      simp [hok, herr] at h
      exact ⟨hok, rfl, h.symm⟩
    | some e => simp [hok, herr] at h
  · simp [Bool.not_eq_true] at hok
    simp [hok] at h

theorem head_none_eq_nil {α : Type} (l : List α) (h : l.head? = none) : l = [] := by
  cases l with
  | nil => rfl
  | cons a t => simp at h

theorem ensure_fresh_fetch_error (store : SessionStore) (sid : String)
    (cr : SFResponse CartCreatePayload) (msg : String)
    (hget : storeGet store sid = none) (herr : shopifyFetch cr = .error msg) :
    ensureCartForSession store sid cr =
      { result := .error msg, store := store, calls := [.cartCreate] } := by
  unfold ensureCartForSession cartCreatePath
  rw [hget, herr]

theorem addToCart_existing (store : SessionStore) (sid : String) (r : CartRecord)
    (vid : String) (q : Option JsonVal) (env : AddEnv)
    (hget : storeGet store sid = some r) (hid : r.cartId ≠ "") (hvid : vid ≠ "") :
    (addToCart store sid { variantId := some vid, quantity := q } env).calls =
      [.cartLinesAdd r.cartId vid (coerceQuantity q)] ∧
    ((addToCart store sid { variantId := some vid, quantity := q } env).store = store ∨
     (env.addResp.ok = true ∧ env.addResp.errors = none ∧
      env.addResp.data.userErrors = [] ∧
      (addToCart store sid { variantId := some vid, quantity := q } env).store =
        storeSet store sid { cartId := env.addResp.data.cart.id
                             checkoutUrl := env.addResp.data.cart.checkoutUrl })) := by
  have hens := ensure_complete_record store sid r env.createResp hget hid
  cases hfetch : shopifyFetch env.addResp with
  | error msg =>
    exact ⟨by simp [addToCart, hvid, hens, hfetch],
           .inl (by simp [addToCart, hvid, hens, hfetch])⟩
  | ok payload =>
    obtain ⟨hok, herr, hdata⟩ := shopifyFetch_ok_inv env.addResp payload hfetch
    cases hue : payload.userErrors.head? with
    | some e =>
      exact ⟨by simp [addToCart, hvid, hens, hfetch, hue],
             .inl (by simp [addToCart, hvid, hens, hfetch, hue])⟩
    | none =>
      have hnil : payload.userErrors = [] := head_none_eq_nil _ hue
      refine ⟨by simp [addToCart, hvid, hens, hfetch, hue], .inr ⟨hok, herr, ?_, ?_⟩⟩
      · rw [← hdata]; exact hnil
      · rw [← hdata]
        simp [addToCart, hvid, hens, hfetch, hue]

theorem addToCart_store_other_key (store : SessionStore) (sid sid' : String)
    (req : AddToCartReq) (env : AddEnv) (h : sid' ≠ sid) :
    storeGet (addToCart store sid' req env).store sid = storeGet store sid := by
  obtain ⟨variantId, quantity⟩ := req
  cases variantId with
  | none => simp [addToCart]
  | some vid =>
    by_cases hv : vid = ""
    · simp [addToCart, hv]
    · have hens := ensure_store_other_key store sid sid' env.createResp h
      cases hres : (ensureCartForSession store sid' env.createResp).result with
      | error msg => simpa [addToCart, hv, hres] using hens
      | ok session =>
        cases hfetch : shopifyFetch env.addResp with
        | error msg => simpa [addToCart, hv, hres, hfetch] using hens
        | ok payload =>
          cases hue : payload.userErrors.head? with
          | some e => simpa [addToCart, hv, hres, hfetch, hue] using hens
          | none =>
            rw [show (addToCart store sid'
                  { variantId := some vid, quantity := quantity } env).store =
                storeSet (ensureCartForSession store sid' env.createResp).store sid'
                  { cartId := payload.cart.id, checkoutUrl := payload.cart.checkoutUrl }
              from by simp [addToCart, hv, hres, hfetch, hue]]
            rw [storeGet_storeSet_ne _ _ _ _ h]
            exact hens

theorem stepStore_preserves (sid cid : String) (hcid : cid ≠ "") (op : Op)
    (hecho : EchoOk sid cid op) (store : SessionStore) (url : String)
    (hget : storeGet store sid = some { cartId := cid, checkoutUrl := url }) :
    ∃ url2, storeGet (stepStore store op) sid =
      some { cartId := cid, checkoutUrl := url2 } := by
  cases op with
  | resolve sid2 cr =>
    by_cases hs : sid2 = sid
    · subst hs
      rw [stepStore, ensure_complete_record store sid2 _ cr hget hcid]
      exact ⟨url, hget⟩
    · rw [stepStore, ensure_store_other_key store sid sid2 cr hs]
      exact ⟨url, hget⟩
  | add sid2 req env =>
    by_cases hs : sid2 = sid
    · subst hs
      obtain ⟨variantId, quantity⟩ := req
      cases variantId with
      | none => exact ⟨url, by simpa [stepStore, addToCart] using hget⟩
      | some vid =>
        by_cases hv : vid = ""
        · exact ⟨url, by simpa [stepStore, addToCart, hv] using hget⟩
        · rcases (addToCart_existing store sid2 _ vid quantity env hget hcid hv).2 with
            hst | ⟨hok, herr, hue, hst⟩
          · exact ⟨url, by rw [stepStore, hst]; exact hget⟩
          · have hid : env.addResp.data.cart.id = cid := hecho rfl hok herr hue
            refine ⟨env.addResp.data.cart.checkoutUrl, ?_⟩
            rw [stepStore, hst, hid]
            exact storeGet_storeSet_self _ _ _
    · rw [stepStore, addToCart_store_other_key store sid sid2 req env hs]
      exact ⟨url, hget⟩

theorem run_preserves_cart_id (sid cid : String) (hcid : cid ≠ "") :
    ∀ (ops : List Op) (store : SessionStore) (url : String),
      storeGet store sid = some { cartId := cid, checkoutUrl := url } →
      (∀ op ∈ ops, EchoOk sid cid op) →
      ∃ url2, storeGet (run store ops) sid = some { cartId := cid, checkoutUrl := url2 }
  | [], store, url, hget, _ => ⟨url, hget⟩
  | op :: ops, store, url, hget, hecho => by
    obtain ⟨url2, h2⟩ :=
      stepStore_preserves sid cid hcid op (hecho op (by simp)) store url hget
    exact run_preserves_cart_id sid cid hcid ops (stepStore store op) url2 h2
      (fun o ho => hecho o (by simp [ho]))

theorem cartCreatePath_new_record (store : SessionStore) (sid : String)
    (cr : SFResponse CartCreatePayload) (k : String) (r : CartRecord)
    (h : storeGet (cartCreatePath store sid cr).store k = some r) :
    storeGet store k = some r ∨ CreateYields cr r := by
  unfold cartCreatePath at h
  cases hf : shopifyFetch cr with
  | error msg =>
    rw [hf] at h
    exact .inl h
  | ok payload =>
    cases hue : payload.userErrors.head? with
    | some e =>
      simp [hf, hue] at h
      exact .inl h
    | none =>
      simp [hf, hue] at h
      rcases storeGet_storeSet_cases _ _ _ _ _ h with ⟨hk, hr⟩ | hold
      · obtain ⟨hok, herr, hdata⟩ := shopifyFetch_ok_inv cr payload hf
        subst hdata
        exact .inr ⟨hok, herr, head_none_eq_nil _ hue, hr⟩
      · exact .inl hold

theorem ensure_new_record (store : SessionStore) (sid : String)
    (cr : SFResponse CartCreatePayload) (k : String) (r : CartRecord)
    (h : storeGet (ensureCartForSession store sid cr).store k = some r) :
    storeGet store k = some r ∨ CreateYields cr r := by
  unfold ensureCartForSession at h
  cases hg : storeGet store sid with
  | some s =>
    rw [hg] at h
    by_cases hid : s.cartId ≠ ""
    · simp [hid] at h
      exact .inl h
    · simp only [hid, ite_false] at h
      exact cartCreatePath_new_record store sid cr k r h
  | none =>
    rw [hg] at h
    exact cartCreatePath_new_record store sid cr k r h

theorem addToCart_new_record (store : SessionStore) (sid : String)
    (req : AddToCartReq) (env : AddEnv) (k : String) (r : CartRecord)
    (h : storeGet (addToCart store sid req env).store k = some r) :
    storeGet store k = some r ∨
    CreateYields env.createResp r ∨ AddYields env.addResp r := by
  obtain ⟨variantId, quantity⟩ := req
  cases variantId with
  | none =>
    simp [addToCart] at h
    exact .inl h
  | some vid =>
    by_cases hv : vid = ""
    · simp [addToCart, hv] at h
      exact .inl h
    · cases hres : (ensureCartForSession store sid env.createResp).result with
      | error msg =>
        rw [show (addToCart store sid { variantId := some vid, quantity := quantity }
              env).store = (ensureCartForSession store sid env.createResp).store
            from by simp [addToCart, hv, hres]] at h
        rcases ensure_new_record store sid env.createResp k r h with h1 | h1
        · exact .inl h1
        · exact .inr (.inl h1)
      | ok session =>
        cases hfetch : shopifyFetch env.addResp with
        | error msg =>
          rw [show (addToCart store sid { variantId := some vid, quantity := quantity }
                env).store = (ensureCartForSession store sid env.createResp).store
              from by simp [addToCart, hv, hres, hfetch]] at h
          rcases ensure_new_record store sid env.createResp k r h with h1 | h1
          · exact .inl h1
          · exact .inr (.inl h1)
        | ok payload =>
          cases hue : payload.userErrors.head? with
          | some e =>
            rw [show (addToCart store sid { variantId := some vid, quantity := quantity }
                  env).store = (ensureCartForSession store sid env.createResp).store
                from by simp [addToCart, hv, hres, hfetch, hue]] at h
            rcases ensure_new_record store sid env.createResp k r h with h1 | h1
            · exact .inl h1
            · exact .inr (.inl h1)
          | none =>
            rw [show (addToCart store sid { variantId := some vid, quantity := quantity }
                  env).store =
                storeSet (ensureCartForSession store sid env.createResp).store sid
                  { cartId := payload.cart.id, checkoutUrl := payload.cart.checkoutUrl }
                from by simp [addToCart, hv, hres, hfetch, hue]] at h
            rcases storeGet_storeSet_cases _ _ _ _ _ h with ⟨hk, hr⟩ | hold
            · obtain ⟨hok, herr, hdata⟩ := shopifyFetch_ok_inv env.addResp payload hfetch
              subst hdata
              exact .inr (.inr ⟨hok, herr, head_none_eq_nil _ hue, hr⟩)
            · rcases ensure_new_record store sid env.createResp k r hold with h1 | h1
              · exact .inl h1
              · exact .inr (.inl h1)

theorem stepStore_new_record (store : SessionStore) (op : Op) (k : String)
    (r : CartRecord) (h : storeGet (stepStore store op) k = some r) :
    storeGet store k = some r ∨ OpYields op r := by
  cases op with
  | resolve sid cr => exact ensure_new_record store sid cr k r h
  | add sid req env => exact addToCart_new_record store sid req env k r h

theorem run_new_record :
    ∀ (ops : List Op) (store : SessionStore) (k : String) (r : CartRecord),
      storeGet (run store ops) k = some r →
      storeGet store k = some r ∨ ∃ op ∈ ops, OpYields op r
  | [], _, _, _, h => .inl h
  | op :: ops, store, k, r, h => by
    rcases run_new_record ops (stepStore store op) k r h with h1 | ⟨op2, hmem, hy⟩
    · rcases stepStore_new_record store op k r h1 with h2 | h2
      · exact .inl h2
      · exact .inr ⟨op, by simp, h2⟩
    · exact .inr ⟨op2, by simp [hmem], hy⟩

/-! ## The claims -/

/-- C1: for a session key not previously present in the store, resolve
(`ensureCartForSession`) calls the cart-creation operation exactly
once, stores the returned cart id and checkout url under that key, and
— as long as later operations' line-add replies echo the cart id, as
the trusted remote does — every later resolve of that key returns the
same cart id with no further remote call. -/
theorem resolve_fresh_creates_once (store : SessionStore) (sid : String)
    (cr : SFResponse CartCreatePayload) (ops : List Op)
    (hfresh : storeGet store sid = none)
    (hok : cr.ok = true) (herr : cr.errors = none)
    (hue : cr.data.userErrors = []) (hid : cr.data.cart.id ≠ "")
    (hecho : ∀ op ∈ ops, EchoOk sid cr.data.cart.id op) :
    (ensureCartForSession store sid cr).calls = [.cartCreate] ∧
    (ensureCartForSession store sid cr).result =
      .ok { cartId := cr.data.cart.id, checkoutUrl := cr.data.cart.checkoutUrl } ∧
    storeGet (ensureCartForSession store sid cr).store sid =
      some { cartId := cr.data.cart.id, checkoutUrl := cr.data.cart.checkoutUrl } ∧
    (∀ cr2, ∃ url2,
      ensureCartForSession (run (ensureCartForSession store sid cr).store ops) sid cr2 =
        { result := .ok { cartId := cr.data.cart.id, checkoutUrl := url2 }
          store := run (ensureCartForSession store sid cr).store ops
          calls := [] }) := by
  have he := ensure_fresh_success store sid cr hfresh hok herr hue
  rw [he]
  refine ⟨rfl, rfl, storeGet_storeSet_self _ _ _, ?_⟩
  intro cr2
  obtain ⟨url2, h2⟩ := run_preserves_cart_id sid cr.data.cart.id hid ops
    (storeSet store sid
      { cartId := cr.data.cart.id, checkoutUrl := cr.data.cart.checkoutUrl })
    cr.data.cart.checkoutUrl (storeGet_storeSet_self _ _ _) hecho
  exact ⟨url2, ensure_complete_record _ sid _ cr2 h2 hid⟩

/-- Witness for C1 at a concrete fresh key and successful creation. -/
theorem resolve_fresh_creates_once_witness :
    (ensureCartForSession [] "s"
        { ok := true, errors := none
          data := { cart := { id := "c1", checkoutUrl := "u1" }, userErrors := [] }
          raw := "" }).calls = [.cartCreate] ∧
    storeGet (ensureCartForSession [] "s"
        { ok := true, errors := none
          data := { cart := { id := "c1", checkoutUrl := "u1" }, userErrors := [] }
          raw := "" }).store "s" = some { cartId := "c1", checkoutUrl := "u1" } := by
  have h := resolve_fresh_creates_once [] "s"
    { ok := true, errors := none
      data := { cart := { id := "c1", checkoutUrl := "u1" }, userErrors := [] }
      raw := "" } [] rfl rfl rfl rfl (by decide)
    (fun op h => absurd h (List.not_mem_nil op))
  exact ⟨h.1, h.2.2.1⟩

/-- C2: for a session key whose stored record carries a (truthy) cart
identifier, resolve returns that record unchanged, issues zero remote
calls and leaves the session store unmodified. -/
theorem resolve_existing_cart_is_pure (store : SessionStore) (sid : String)
    (r : CartRecord) (cr : SFResponse CartCreatePayload)
    (hget : storeGet store sid = some r) (hid : r.cartId ≠ "") :
    ensureCartForSession store sid cr =
      { result := .ok r, store := store, calls := [] } :=
  ensure_complete_record store sid r cr hget hid

/-- Witness for C2 at a concrete stored record. -/
theorem resolve_existing_cart_is_pure_witness :
    ensureCartForSession [("s", { cartId := "cartA", checkoutUrl := "urlA" })] "s"
        { ok := true, errors := none
          data := { cart := { id := "x", checkoutUrl := "y" }, userErrors := [] }
          raw := "" } =
      { result := .ok { cartId := "cartA", checkoutUrl := "urlA" }
        store := [("s", { cartId := "cartA", checkoutUrl := "urlA" })]
        calls := [] } :=
  resolve_existing_cart_is_pure _ _ _ _ rfl (by decide)

/-- C3 as stated is false: a negative quantity is truthy in JS, so
`Number(quantity) || 1` forwards it unchanged instead of collapsing it
to 1 — here `-5` is sent to the line-add operation. -/
theorem addToCart_negative_quantity_cex :
    (addToCart [("s", { cartId := "c", checkoutUrl := "u" })] "s"
        { variantId := some "v1", quantity := some (.jNum (-5)) }
        { createResp :=
            { ok := true, errors := none
              data := { cart := { id := "x", checkoutUrl := "y" }, userErrors := [] }
              raw := "" }
          addResp :=
            { ok := true, errors := none
              data := { cart := { id := "c", checkoutUrl := "u", totalQuantity := 1 }
                        userErrors := [] }
              raw := "" } }).calls =
      [.cartLinesAdd "c" "v1" (-5)] ∧ ((-5 : Int) ≠ 1) :=
  ⟨rfl, by decide⟩

/-- C3 amended: with `variantId` present, the quantity sent to the
line-add operation is `Number(quantity) || 1`: 1 when the field is
absent, non-numeric (NaN) or zero, and the given number otherwise —
including negative values, which pass through unchanged; an omitted
quantity behaves identically to `quantity = 1`. -/
theorem addToCart_quantity_sent (store : SessionStore) (sid vid : String)
    (q : Option JsonVal) (env : AddEnv) (r : CartRecord)
    (hvid : vid ≠ "") (hget : storeGet store sid = some r) (hid : r.cartId ≠ "") :
    (addToCart store sid { variantId := some vid, quantity := q } env).calls =
      [.cartLinesAdd r.cartId vid (coerceQuantity q)] ∧
    coerceQuantity none = 1 ∧
    coerceQuantity none = coerceQuantity (some (.jNum 1)) ∧
    (∀ v, jsNumber v = none → coerceQuantity (some v) = 1) ∧
    (∀ v, jsNumber v = some 0 → coerceQuantity (some v) = 1) ∧
    (∀ v n, jsNumber v = some n → n ≠ 0 → coerceQuantity (some v) = n) := by
  refine ⟨(addToCart_existing store sid r vid q env hget hid hvid).1,
    rfl, rfl, ?_, ?_, ?_⟩
  · intro v hv
    simp [coerceQuantity, hv]
  · intro v hv
    simp [coerceQuantity, hv]
  · intro v n hv hn
    simp [coerceQuantity, hv, hn]

/-- Witness for the amended C3 at a concrete session and a non-numeric
quantity. -/
theorem addToCart_quantity_sent_witness :
    (addToCart [("s", { cartId := "c", checkoutUrl := "u" })] "s"
        { variantId := some "v1", quantity := some (.jStr "abc") }
        { createResp :=
            { ok := true, errors := none
              data := { cart := { id := "x", checkoutUrl := "y" }, userErrors := [] }
              raw := "" }
          addResp :=
            { ok := true, errors := none
              data := { cart := { id := "c", checkoutUrl := "u", totalQuantity := 1 }
                        userErrors := [] }
              raw := "" } }).calls =
      [.cartLinesAdd "c" "v1" (coerceQuantity (some (.jStr "abc")))] ∧
    coerceQuantity (some (.jStr "abc")) = 1 := by
  have h := addToCart_quantity_sent
    [("s", { cartId := "c", checkoutUrl := "u" })] "s" "v1"
    (some (.jStr "abc"))
    { createResp :=
        { ok := true, errors := none
          data := { cart := { id := "x", checkoutUrl := "y" }, userErrors := [] }
          raw := "" }
      addResp :=
        { ok := true, errors := none
          data := { cart := { id := "c", checkoutUrl := "u", totalQuantity := 1 }
                    userErrors := [] }
          raw := "" } }
    { cartId := "c", checkoutUrl := "u" } (by decide) rfl (by decide)
  exact ⟨h.1, h.2.2.2.1 (.jStr "abc") (by decide)⟩

/-- C6: a `/add-to-cart` request without `variantId` is answered 400
with an error body before any remote call, and the session store is
untouched. -/
theorem addToCart_missing_variantId_rejected (store : SessionStore) (sid : String)
    (q : Option JsonVal) (env : AddEnv) :
    addToCart store sid { variantId := none, quantity := q } env =
      { resp := .err 400 "variantId required", store := store, calls := [] } ∧
    (RouteResp.err 400 "variantId required" : RouteResp AddResult).status = 400 :=
  ⟨rfl, rfl⟩

/-- C4 as stated is false: when a fresh session's cart creation
succeeds and the subsequent line-add reply carries a non-empty
`errors` array, the route does answer 500 with the serialized errors,
but the session store is NOT left unmodified — the record written by
the successful cart creation remains. -/
theorem addToCart_failure_modified_store_cex :
    (addToCart [] "s" { variantId := some "v1", quantity := none }
        { createResp :=
            { ok := true, errors := none
              data := { cart := { id := "c1", checkoutUrl := "u1" }, userErrors := [] }
              raw := "" }
          addResp :=
            { ok := true, errors := some ["e1"]
              data := { cart := { id := "x", checkoutUrl := "y", totalQuantity := 0 }
                        userErrors := [] }
              raw := "" } }).resp = .err 500 (jsonStringifyErrors ["e1"]) ∧
    (addToCart [] "s" { variantId := some "v1", quantity := none }
        { createResp :=
            { ok := true, errors := none
              data := { cart := { id := "c1", checkoutUrl := "u1" }, userErrors := [] }
              raw := "" }
          addResp :=
            { ok := true, errors := some ["e1"]
              data := { cart := { id := "x", checkoutUrl := "y", totalQuantity := 0 }
                        userErrors := [] }
              raw := "" } }).store = [("s", { cartId := "c1", checkoutUrl := "u1" })] ∧
    [("s", { cartId := ("c1" : String), checkoutUrl := ("u1" : String) })] ≠
      ([] : SessionStore) :=
  ⟨rfl, rfl, by simp⟩

/-- C4 amended: any failing remote reply — a transport failure
(non-success status) or a present `errors` array — makes `shopifyFetch`
raise a single message built from the error payload (the serialized
errors, else the serialized body), every route (`/search`,
`/add-to-cart`, `/create-checkout`) answers 500 with exactly that
message, and no record derived from the failing reply is stored: the
store is unchanged — except that in a `/add-to-cart` request on a
fresh session the record written by a preceding successful cart
creation remains. -/
theorem remote_failure_route_behavior :
    (∀ (α : Type) (resp : SFResponse α) (errs : List String),
       resp.errors = some errs →
       shopifyFetch resp = .error (jsonStringifyErrors errs)) ∧
    (∀ (α : Type) (resp : SFResponse α),
       resp.ok = false → resp.errors = none →
       shopifyFetch resp = .error resp.raw) ∧
    (∀ (store : SessionStore) (req : SearchReq) (resp : SFResponse SearchPayload)
       (msg : String), shopifyFetch resp = .error msg →
       (search store req resp).resp = .err 500 msg ∧
       (search store req resp).store = store) ∧
    (∀ (store : SessionStore) (sid vid : String) (q : Option JsonVal) (env : AddEnv)
       (msg : String), vid ≠ "" → storeGet store sid = none →
       shopifyFetch env.createResp = .error msg →
       (addToCart store sid { variantId := some vid, quantity := q } env).resp =
         .err 500 msg ∧
       (addToCart store sid { variantId := some vid, quantity := q } env).store =
         store) ∧
    (∀ (store : SessionStore) (sid vid : String) (q : Option JsonVal) (env : AddEnv)
       (r : CartRecord) (msg : String),
       vid ≠ "" → storeGet store sid = some r → r.cartId ≠ "" →
       shopifyFetch env.addResp = .error msg →
       (addToCart store sid { variantId := some vid, quantity := q } env).resp =
         .err 500 msg ∧
       (addToCart store sid { variantId := some vid, quantity := q } env).store =
         store) ∧
    (∀ (store : SessionStore) (sid vid : String) (q : Option JsonVal) (env : AddEnv)
       (msg : String),
       vid ≠ "" → storeGet store sid = none →
       env.createResp.ok = true → env.createResp.errors = none →
       env.createResp.data.userErrors = [] →
       shopifyFetch env.addResp = .error msg →
       (addToCart store sid { variantId := some vid, quantity := q } env).resp =
         .err 500 msg ∧
       (addToCart store sid { variantId := some vid, quantity := q } env).store =
         storeSet store sid { cartId := env.createResp.data.cart.id
                              checkoutUrl := env.createResp.data.cart.checkoutUrl }) ∧
    (∀ (store : SessionStore) (sid : String) (cr : SFResponse CartCreatePayload)
       (msg : String), storeGet store sid = none →
       shopifyFetch cr = .error msg →
       (createCheckout store sid cr).resp = .err 500 msg ∧
       (createCheckout store sid cr).store = store) := by
  refine ⟨?_, ?_, ?_, ?_, ?_, ?_, ?_⟩
  · intro α resp errs herr
    exact shopifyFetch_errors resp errs herr
  · intro α resp hok herr
    exact shopifyFetch_transport resp hok herr
  · intro store req resp msg hfail
    constructor <;> simp [search, hfail]
  · intro store sid vid q env msg hv hget hfail
    have hens := ensure_fresh_fetch_error store sid env.createResp msg hget hfail
    constructor <;> simp [addToCart, hv, hens]
  · intro store sid vid q env r msg hv hget hid hfail
    have hens := ensure_complete_record store sid r env.createResp hget hid
    constructor <;> simp [addToCart, hv, hens, hfail]
  · intro store sid vid q env msg hv hget hcok hcerr hcue hfail
    have hens := ensure_fresh_success store sid env.createResp hget hcok hcerr hcue
    constructor <;> simp [addToCart, hv, hens, hfail]
  · intro store sid cr msg hget hfail
    have hens := ensure_fresh_fetch_error store sid cr msg hget hfail
    constructor <;> simp [createCheckout, hens]

/-- Witness for the amended C4: a concrete search failing with a
non-empty `errors` array answers 500 with the serialized errors and
leaves the store as it was, and a concrete `/create-checkout` whose
cart creation fails at transport level answers 500 with the serialized
body and stores nothing. -/
theorem remote_failure_route_behavior_witness :
    (search [("k", { cartId := "c", checkoutUrl := "u" })]
        { query := none, maxPrice := none }
        { ok := true, errors := some ["boom"]
          data := { products := { edges := some [] } }, raw := "" }).resp =
      .err 500 "[boom]" ∧
    (search [("k", { cartId := "c", checkoutUrl := "u" })]
        { query := none, maxPrice := none }
        { ok := true, errors := some ["boom"]
          data := { products := { edges := some [] } }, raw := "" }).store =
      [("k", { cartId := "c", checkoutUrl := "u" })] ∧
    (createCheckout [] "s"
        { ok := false, errors := none
          data := { cart := { id := "c1", checkoutUrl := "u1" }, userErrors := [] }
          raw := "http 502" }).resp = .err 500 "http 502" ∧
    (createCheckout [] "s"
        { ok := false, errors := none
          data := { cart := { id := "c1", checkoutUrl := "u1" }, userErrors := [] }
          raw := "http 502" }).store = [] :=
  ⟨(remote_failure_route_behavior.2.2.1
      [("k", { cartId := "c", checkoutUrl := "u" })]
      { query := none, maxPrice := none }
      { ok := true, errors := some ["boom"]
        data := { products := { edges := some [] } }, raw := "" }
      "[boom]" rfl).1,
   (remote_failure_route_behavior.2.2.1
      [("k", { cartId := "c", checkoutUrl := "u" })]
      { query := none, maxPrice := none }
      { ok := true, errors := some ["boom"]
        data := { products := { edges := some [] } }, raw := "" }
      "[boom]" rfl).2,
   (remote_failure_route_behavior.2.2.2.2.2.2 [] "s"
      { ok := false, errors := none
        data := { cart := { id := "c1", checkoutUrl := "u1" }, userErrors := [] }
        raw := "http 502" }
      "http 502" rfl rfl).1,
   (remote_failure_route_behavior.2.2.2.2.2.2 [] "s"
      { ok := false, errors := none
        data := { cart := { id := "c1", checkoutUrl := "u1" }, userErrors := [] }
        raw := "http 502" }
      "http 502" rfl rfl).2⟩

/-- C5: once a (truthy) cart id is stored for a session key, it never
changes across any later sequence of operations whose successful
line-add replies echo the cart id (the implementation re-persists the
remote's value, so this is exactly the discipline of the actual
remote); in particular two sequential `/add-to-cart` calls for the
same session send and re-store the same cart id. -/
theorem cart_id_stable_once_stored (store : SessionStore) (sid cid url : String)
    (ops : List Op)
    (hget : storeGet store sid = some { cartId := cid, checkoutUrl := url })
    (hcid : cid ≠ "")
    (hecho : ∀ op ∈ ops, EchoOk sid cid op) :
    (∃ url2, storeGet (run store ops) sid =
      some { cartId := cid, checkoutUrl := url2 }) ∧
    (∀ (vid1 vid2 : String) (q1 q2 : Option JsonVal) (env1 env2 : AddEnv),
      vid1 ≠ "" → vid2 ≠ "" →
      (env1.addResp.ok = true → env1.addResp.errors = none →
        env1.addResp.data.userErrors = [] → env1.addResp.data.cart.id = cid) →
      (addToCart store sid { variantId := some vid1, quantity := q1 } env1).calls =
        [.cartLinesAdd cid vid1 (coerceQuantity q1)] ∧
      (addToCart
          (addToCart store sid { variantId := some vid1, quantity := q1 } env1).store
          sid { variantId := some vid2, quantity := q2 } env2).calls =
        [.cartLinesAdd cid vid2 (coerceQuantity q2)]) := by
  refine ⟨run_preserves_cart_id sid cid hcid ops store url hget hecho, ?_⟩
  intro vid1 vid2 q1 q2 env1 env2 hv1 hv2 hecho1
  have h1 := addToCart_existing store sid _ vid1 q1 env1 hget hcid hv1
  refine ⟨h1.1, ?_⟩
  rcases h1.2 with hst | ⟨hok, herr, hue, hst⟩
  · rw [hst]
    exact (addToCart_existing store sid _ vid2 q2 env2 hget hcid hv2).1
  · have hid2 : env1.addResp.data.cart.id = cid := hecho1 hok herr hue
    rw [hst, hid2]
    exact (addToCart_existing _ sid _ vid2 q2 env2
      (storeGet_storeSet_self store sid
        { cartId := cid, checkoutUrl := env1.addResp.data.cart.checkoutUrl })
      hcid hv2).1

/-- Witness for C5: a concrete stored cart id survives a later
echoing add-to-cart operation, and two sequential adds both send it. -/
theorem cart_id_stable_once_stored_witness :
    (∃ url2, storeGet
        (run [("s", { cartId := "c", checkoutUrl := "u" })]
          [.add "s" { variantId := some "w", quantity := none }
            { createResp :=
                { ok := true, errors := none
                  data := { cart := { id := "z", checkoutUrl := "zu" }
                            userErrors := [] }
                  raw := "" }
              addResp :=
                { ok := true, errors := none
                  data := { cart := { id := "c", checkoutUrl := "u2", totalQuantity := 2 }
                            userErrors := [] }
                  raw := "" } }]) "s" =
      some { cartId := "c", checkoutUrl := url2 }) := by
  have h := cart_id_stable_once_stored
    [("s", { cartId := "c", checkoutUrl := "u" })] "s" "c" "u"
    [.add "s" { variantId := some "w", quantity := none }
      { createResp :=
          { ok := true, errors := none
            data := { cart := { id := "z", checkoutUrl := "zu" }, userErrors := [] }
            raw := "" }
        addResp :=
          { ok := true, errors := none
            data := { cart := { id := "c", checkoutUrl := "u2", totalQuantity := 2 }
                      userErrors := [] }
            raw := "" } }]
    rfl (by decide) (by intro op hop; simp at hop; subst hop; intro h1 h2 h3 h4; rfl)
  exact h.1

/-- C7 as stated is false: `if (maxPrice)` is a truthiness test, so a
present-but-zero max price is a present field that yields no
`price:<N` token — the query string is empty, not `price:<0`. -/
theorem buildSearchQuery_zero_maxPrice_cex :
    buildSearchQuery none (some 0) = "" ∧ ("" : String) ≠ "price:<0" :=
  ⟨rfl, by decide⟩

/-- C7 amended: the remote query string is the raw text token (when
present and nonempty) joined by a single space with a `price:<N` token
(when a max price is present and nonzero, i.e. truthy); in particular
`query = "red shirt"` with `maxPrice = 999` yields exactly
`"red shirt price:<999"`, and a request with neither field yields the
empty string. -/
theorem buildSearchQuery_spec (s : String) (n : Int) (hs : s ≠ "") (hn : n ≠ 0) :
    buildSearchQuery (some s) (some n) = s ++ " " ++ ("price:<" ++ toString n) ∧
    buildSearchQuery (some s) none = s ∧
    buildSearchQuery none (some n) = "price:<" ++ toString n ∧
    buildSearchQuery none none = "" ∧
    buildSearchQuery (some "red shirt") (some 999) = "red shirt price:<999" := by
  refine ⟨?_, ?_, ?_, rfl, rfl⟩
  · simp [buildSearchQuery, hs, hn]
    rfl
  · simp [buildSearchQuery, hs]
    rfl
  · simp [buildSearchQuery, hn]
    rfl

/-- Witness for the amended C7 at the spec's own example values. -/
theorem buildSearchQuery_spec_witness :
    buildSearchQuery (some "red shirt") (some 999) =
      "red shirt" ++ " " ++ ("price:<" ++ toString (999 : Int)) ∧
    buildSearchQuery none none = "" :=
  ⟨(buildSearchQuery_spec "red shirt" 999 (by decide) (by decide)).1,
   (buildSearchQuery_spec "red shirt" 999 (by decide) (by decide)).2.2.2.1⟩

/-- C8: given a reply respecting the request's page sizes (`first: 10`
products, `variants(first: 5)`) with nonempty image urls, the item
list has at most 10 entries, each with at most 5 variant summaries,
and each item's single image url is the first element of the image
list, falling back to the featured-image field when that list is
empty. -/
theorem search_response_shape (edges : List ProductNode)
    (h10 : edges.length ≤ searchFirst)
    (h5 : ∀ node ∈ edges, (node.variants.getD []).length ≤ gqlSearchVariantsFirst) :
    (searchItems edges).length ≤ 10 ∧
    (∀ it ∈ searchItems edges, it.variants.length ≤ 5) ∧
    (∀ node ∈ edges, ∀ u rest, node.images = u :: rest → u ≠ "" →
      (mkSearchItem node).imageUrl = u) ∧
    (∀ node ∈ edges, ∀ f, node.images = [] → node.featuredImage = some f → f ≠ "" →
      (mkSearchItem node).imageUrl = f) ∧
    (∀ (store : SessionStore) (req : SearchReq) (resp : SFResponse SearchPayload),
      resp.ok = true → resp.errors = none →
      (search store req resp).resp =
        .ok (searchItems (resp.data.products.edges.getD []))) := by
  refine ⟨?_, ?_, ?_, ?_, ?_⟩
  · simpa [searchItems, searchFirst, searchRemoteVariables] using h10
  · intro it hit
    obtain ⟨node, hnode, rfl⟩ := List.mem_map.mp hit
    have h := h5 node hnode
    simpa [mkSearchItem, gqlSearchVariantsFirst] using h
  · intro node _ u rest himg hu
    simp [mkSearchItem, himg, hu]
  · intro node _ f himg hf hfne
    simp [mkSearchItem, himg, hf, hfne]
  · intro store req resp hok herr
    simp [search, (shopifyFetch_ok_iff resp).mpr ⟨hok, herr⟩]

/-- Witness for C8 at a concrete two-product reply. -/
theorem search_response_shape_witness :
    (searchItems
      [{ id := "p1", title := "t1", featuredImage := some "feat"
         images := ["img1"], priceRange := none
         variants := some [{ id := "v1", title := "tv1"
                             price := { amount := "5.0", currencyCode := "USD" } }] },
       { id := "p2", title := "t2", featuredImage := some "feat2"
         images := [], priceRange := none, variants := none }]).length ≤ 10 ∧
    (mkSearchItem
      { id := "p1", title := "t1", featuredImage := some "feat"
        images := ["img1"], priceRange := none
        variants := some [{ id := "v1", title := "tv1"
                            price := { amount := "5.0", currencyCode := "USD" } }] }).imageUrl =
      "img1" ∧
    (mkSearchItem
      { id := "p2", title := "t2", featuredImage := some "feat2"
        images := [], priceRange := none, variants := none }).imageUrl = "feat2" := by
  have h := search_response_shape
    [{ id := "p1", title := "t1", featuredImage := some "feat"
       images := ["img1"], priceRange := none
       variants := some [{ id := "v1", title := "tv1"
                           price := { amount := "5.0", currencyCode := "USD" } }] },
     { id := "p2", title := "t2", featuredImage := some "feat2"
       images := [], priceRange := none, variants := none }]
    (by decide) (by intro node hnode; fin_cases hnode <;> decide)
  refine ⟨h.1, ?_, ?_⟩
  · exact h.2.2.1 _ (by simp) "img1" [] rfl (by decide)
  · exact h.2.2.2.1 _ (by simp) "feat2" rfl rfl (by decide)

/-- C9 as stated is false: a present-but-empty identifier header is
falsy, so the code falls back to the derived composite instead of
using the (empty) header value. -/
theorem getSessionId_empty_header_cex :
    getSessionId (some "") "1.2.3.4" (some "agent") = "1.2.3.4:agent" ∧
    ("1.2.3.4:agent" : String) ≠ "" :=
  ⟨by decide, by decide⟩

/-- C9 amended: the session key is the caller-supplied identifier
header when present and nonempty (truthy), and otherwise the composite
of network origin and client-agent string truncated to 128 characters;
the key is a pure function of header, origin and agent string, so two
requests with identical inputs always yield the same key. -/
theorem getSessionId_spec (sid ip : String) (ua : Option String) (hsid : sid ≠ "") :
    getSessionId (some sid) ip ua = sid ∧
    getSessionId none ip ua = sliceTo (ip ++ ":" ++ ua.getD "") 128 ∧
    (∀ (h2 : Option String) (ip2 : String) (ua2 : Option String),
      some sid = h2 → ip = ip2 → ua = ua2 →
      getSessionId (some sid) ip ua = getSessionId h2 ip2 ua2) := by
  refine ⟨by simp [getSessionId, hsid], rfl, ?_⟩
  rintro h2 ip2 ua2 rfl rfl rfl
  rfl

/-- Witness for the amended C9 at concrete header and fallback
inputs. -/
theorem getSessionId_spec_witness :
    getSessionId (some "sess-1") "1.2.3.4" (some "agent") = "sess-1" ∧
    getSessionId none "1.2.3.4" (some "agent") =
      sliceTo ("1.2.3.4" ++ ":" ++ "agent") 128 :=
  ⟨(getSessionId_spec "sess-1" "1.2.3.4" (some "agent") (by decide)).1,
   (getSessionId_spec "sess-1" "1.2.3.4" (some "agent") (by decide)).2.1⟩

/-- C10: starting from the empty store of process startup, every
record ever present in the session store originates from a successful
remote mutation reply: both its `cartId` and its `checkoutUrl` are
exactly the cart fields of a `cartCreate` or `cartLinesAdd` success of
one of the operations performed — no operation ever stores a record
missing either field. -/
theorem store_records_from_successful_mutations (ops : List Op) (k : String)
    (r : CartRecord) (h : storeGet (run [] ops) k = some r) :
    ∃ op ∈ ops, OpYields op r := by
  rcases run_new_record ops [] k r h with h0 | h1
  · simp [storeGet] at h0
  · exact h1

/-- Witness for C10: a concrete resolve operation puts exactly its
reply's cart record in the store. -/
theorem store_records_from_successful_mutations_witness :
    ∃ op ∈ ([.resolve "s"
        { ok := true, errors := none
          data := { cart := { id := "c1", checkoutUrl := "u1" }, userErrors := [] }
          raw := "" }] : List Op),
      OpYields op { cartId := "c1", checkoutUrl := "u1" } :=
  store_records_from_successful_mutations
    [.resolve "s"
      { ok := true, errors := none
        data := { cart := { id := "c1", checkoutUrl := "u1" }, userErrors := [] }
        raw := "" }] "s" { cartId := "c1", checkoutUrl := "u1" } rfl

end MCP
